import Mathlib

/-!
Verification of the femto_admin field-schema derivation, auth gate and
datatable rendering (files `femto_admin/utils/fmap.py` and
`femto_admin/admin.py`), as a shallow embedding in Lean.

Python strings are `String`, Python dicts whose key sets are fixed by the
source are structures with `Option`-valued fields (`none` = key absent),
Python exceptions are `Except` errors, and the in-place mutation of the
shared `type2inputs` dict literal is explicit state passing of a `Catalog`
value.
-/

deriving instance DecidableEq for Except

namespace FemtoAdmin

/-! ### Python string helpers

Faithful models of the `str` methods the source uses: `endswith`,
`replace` (all occurrences, left to right, non-overlapping) and
`capitalize` (first character uppercased, the rest lowercased; the
source only feeds ASCII identifiers to it).  They are written over
`List Char` so that every theorem below can be evaluated by `decide`. -/

def listStartsWith : List Char → List Char → Bool
  | _, [] => true
  | [], _ :: _ => false
  | c :: cs, d :: ds => decide (c = d) && listStartsWith cs ds

def pyEndsWith (s suf : String) : Bool :=
  listStartsWith s.data.reverse suf.data.reverse

/-- One pass of `str.replace`.  The fuel argument (instantiated with the
length of the scanned list, which bounds the number of recursive calls)
keeps the recursion structural; the `0` case is unreachable for that
instantiation.  Only called with the non-empty pattern `"_id"`. -/
def pyReplaceAux (old new : List Char) : Nat → List Char → List Char
  | _, [] => []
  | 0, l => l
  | fuel + 1, c :: cs =>
    if listStartsWith (c :: cs) old = true then
      new ++ pyReplaceAux old new fuel (cs.drop (old.length - 1))
    else
      c :: pyReplaceAux old new fuel cs

def pyReplace (s old new : String) : String :=
  String.mk (pyReplaceAux old.data new.data s.data.length s.data)

def pyCapitalize (s : String) : String :=
  match s.data with
  | [] => ""
  | c :: cs => String.mk (c.toUpper :: cs.map Char.toLower)

/-! ### fmap.py — data model -/

/-- `class FieldType(IntEnum)` (fmap.py lines 9-16).  The source only ever
uses the member names (`FieldType.x.name`), never the integer values. -/
inductive FieldType
  | input | checkbox | select | textarea | collection | list | json
  deriving DecidableEq, Repr

def FieldType.name : FieldType → String
  | .input => "input"
  | .checkbox => "checkbox"
  | .select => "select"
  | .textarea => "textarea"
  | .collection => "collection"
  | .list => "list"
  | .json => "json"

/-- One widget-descriptor dict.  The source's dicts only ever carry the
keys `input`, `type`, `step`, `multiple`, `options`, `source_field` and
`req`, so the dict is a structure with `Option`-valued fields
(`none` = key absent).  `type` is spelled `ty` (reserved word); the
`multiple` key is only ever set to `True`, so absence is `false`. -/
structure Inp where
  input : String
  ty : Option String := none
  step : Option String := none
  multiple : Bool := false
  options : Option (List (Int × String)) := none
  source_field : Option String := none
  req : Option Bool := none
  deriving DecidableEq, Repr

/-- A non-union Python class (or `types.GenericAlias`) that can occur as
a pydantic annotation or as a member of a union in this code base.
`aIntEnumBase` is the `IntEnum` class itself (a catalog key); `aEnum` is
a concrete `IntEnum` subclass with its `(value, name)` members;
`aGeneric` is a `types.GenericAlias` such as `list[int]` — the source
only ever reads its `__origin__`, so the type arguments are not
modelled; `aOther` is any other class. -/
inductive Atom
  | aStr | aInt | aFloat | aBool | aDatetime | aDate | aTime
  | aIntEnumBase
  | aEnum (name : String) (members : List (Int × String))
  | aList | aDict | aSet
  | aNoneType
  | aGeneric (origin : Atom)
  | aOther (name : String)
  deriving DecidableEq, Repr

/-- A Python type annotation: a plain class, a `types.UnionType`
(`X | Y | ...` — Python unions are flat, so the members are atoms), or
`typing.Optional[X]` (whose `_name` is `'Optional'` and whose `get_args`
are `(X, NoneType)`). -/
inductive Typ
  | atom (a : Atom)
  | tUnion (args : List Atom)
  | tOptional (arg : Atom)
  deriving DecidableEq, Repr

/-- The current state of the module-level `type2inputs` dict literal
(fmap.py lines 19-34).  It has exactly eleven keys and the source never
adds or removes a key — it only mutates the value dicts in place — so the
state is a record of the eleven entries. -/
structure Catalog where
  cStr : Inp
  cInt : Inp
  cFloat : Inp
  cBool : Inp
  cDatetime : Inp
  cDate : Inp
  cTime : Inp
  cIntEnum : Inp
  cList : Inp
  cDict : Inp
  cSet : Inp
  deriving DecidableEq, Repr

/-- `type2inputs.get(cls)`: a class that is one of the eleven keys hits
its entry; everything else (enum subclasses, generic aliases, `NoneType`,
unknown classes) misses. -/
def Catalog.get (c : Catalog) : Atom → Option Inp
  | .aStr => some c.cStr
  | .aInt => some c.cInt
  | .aFloat => some c.cFloat
  | .aBool => some c.cBool
  | .aDatetime => some c.cDatetime
  | .aDate => some c.cDate
  | .aTime => some c.cTime
  | .aIntEnumBase => some c.cIntEnum
  | .aList => some c.cList
  | .aDict => some c.cDict
  | .aSet => some c.cSet
  | _ => none

/-- In-place mutation of the dict stored under a catalog key (the aliasing
effect of `inp.update(...)` when `inp` was obtained from the catalog). -/
def Catalog.set (c : Catalog) (a : Atom) (v : Inp) : Catalog :=
  match a with
  | .aStr => { c with cStr := v }
  | .aInt => { c with cInt := v }
  | .aFloat => { c with cFloat := v }
  | .aBool => { c with cBool := v }
  | .aDatetime => { c with cDatetime := v }
  | .aDate => { c with cDate := v }
  | .aTime => { c with cTime := v }
  | .aIntEnumBase => { c with cIntEnum := v }
  | .aList => { c with cList := v }
  | .aDict => { c with cDict := v }
  | .aSet => { c with cSet := v }
  | _ => c

/-- `type2inputs.get(typ)` for a full annotation: a union or `Optional`
is never a dict key, so only plain classes can hit. -/
def typGet (cat : Catalog) : Typ → Option Inp
  | .atom a => cat.get a
  | _ => none

/-- The initial value of the `type2inputs` dict literal, entry for entry
(fmap.py lines 19-34).  Note the `int` entry carries no `step` key. -/
def type2inputs : Catalog :=
  { cStr := { input := FieldType.input.name },
    cInt := { input := FieldType.input.name, ty := some "number" },
    cFloat := { input := FieldType.input.name, ty := some "number", step := some "0.001" },
    cBool := { input := FieldType.checkbox.name },
    cDatetime := { input := FieldType.input.name, ty := some "datetime-local" },
    cDate := { input := FieldType.input.name, ty := some "date" },
    cTime := { input := FieldType.input.name, ty := some "time" },
    cIntEnum := { input := FieldType.select.name },
    cList := { input := FieldType.select.name, multiple := true },
    cDict := { input := FieldType.json.name },
    cSet := { input := FieldType.select.name, multiple := true } }

/-! ### fmap.py — typ2inp / ffrom_pyd -/

/-- The `req` parameter of `typ2inp`.  It starts as the bool `True`; the
unpacking `typ, req = get_args(typ)` (line 43) rebinds it to the second
union argument, which is a *class object* (for `X | None` it is
`NoneType`, not `None`).  `bool(...)` of any class object is `True` in
Python — classes define no `__bool__` — which is what `toBool` encodes. -/
inductive ReqVal
  | rBool (b : Bool)
  | rType (t : Atom)
  deriving DecidableEq, Repr

def ReqVal.toBool : ReqVal → Bool
  | .rBool b => b
  | .rType _ => true

/-- The exceptions `typ2inp` can raise.  `unsupportedFieldType` is the
`AttributeError` from `inp.update(...)` at line 52 when `inp` is still
`None` (no rule matched); `ambiguousOptionalType` is the `ValueError`
from unpacking `get_args(typ)` at line 43 into two names when the union
does not have exactly two arguments. -/
inductive SchemaError
  | unsupportedFieldType
  | ambiguousOptionalType
  deriving DecidableEq, Repr

/-- `issubclass(typ, IntEnum)` restricted to the classes that can reach
line 45 (a proper `IntEnum` subclass; `IntEnum` itself is a direct
catalog hit and never reaches this test), returning the subclass's
members.  `issubclass` on a `types.GenericAlias` returns `False` — the
alias forwards `__bases__` to its origin, so no `TypeError` is raised. -/
def enumMembers : Atom → Option (List (Int × String))
  | .aEnum _ ms => some ms
  | _ => none

/-- fmap.py lines 44-53: the second `type2inputs.get` after a possible
unwrap, then the `IntEnum`-subclass fallback (lines 45-47, which mutates
the shared `type2inputs[IntEnum]` dict in place) and the
`types.GenericAlias` fallback (lines 48-51, which aliases — and for
`list` origins mutates — the shared entry of the bare origin class).
Line 52's `inp.update({'req': bool(req)})` writes the `req` key through
the alias into the catalog entry the returned dict came from; when `inp`
is still `None` it raises (`unsupportedFieldType`). -/
def typ2inpPhase2 (a : Atom) (req : ReqVal) (cat : Catalog) :
    Except SchemaError Inp × Catalog :=
  match cat.get a with
  | some inp =>
    let inp2 := { inp with req := some req.toBool }
    (Except.ok inp2, cat.set a inp2)
  | none =>
    match enumMembers a with
    | some ms =>
      let inp2 := { cat.cIntEnum with options := some ms, req := some req.toBool }
      (Except.ok inp2, { cat with cIntEnum := inp2 })
    | none =>
      match a with
      | .aGeneric origin =>
        match cat.get origin with
        | some inp =>
          let inp1 := if origin = Atom.aList then { inp with options := some [] } else inp
          let inp2 := { inp1 with req := some req.toBool }
          (Except.ok inp2, cat.set origin inp2)
        | none => (Except.error SchemaError.unsupportedFieldType, cat)
      | _ => (Except.error SchemaError.unsupportedFieldType, cat)

/-- fmap.py lines 41-53: the `elif` chain of `typ2inp` — direct catalog
lookup (whose hit dict is aliased, so the final `req` write mutates the
catalog entry), then the optional/union test of line 42 and the
unpacking `typ, req = get_args(typ)` of line 43 (which raises a
`ValueError` unless the union has exactly two members, and rebinds `req`
to the second member, a class object), then the fallbacks. -/
def typ2inpChain (typ : Typ) (req : ReqVal) (cat : Catalog) :
    Except SchemaError Inp × Catalog :=
  match typGet cat typ with
  | some inp =>
    let inp2 := { inp with req := some req.toBool }
    (Except.ok inp2,
     match typ with
     | .atom a => cat.set a inp2
     | _ => cat)
  | none =>
    match typ with
    | .tUnion args =>
      match args with
      | [t2, r2] => typ2inpPhase2 t2 (ReqVal.rType r2) cat
      | _ => (Except.error SchemaError.ambiguousOptionalType, cat)
    | .tOptional a => typ2inpPhase2 a (ReqVal.rType Atom.aNoneType) cat
    | .atom a => typ2inpPhase2 a req cat

/-- fmap.py lines 38-53, `typ2inp(typ, key, req=True)`.  Line 39-40: a
key ending in `'_id'` whose type *is* `int` short-circuits into a fresh
(non-aliased) select dict whose `source_field` is
`key.replace('_id', '').capitalize()` — note `replace` removes every
occurrence of `'_id'`, not only the suffix.  Everything else goes through
the `elif` chain. -/
def typ2inp (typ : Typ) (key : String) (req : ReqVal) (cat : Catalog) :
    Except SchemaError Inp × Catalog :=
  if pyEndsWith key "_id" = true ∧ typ = Typ.atom Atom.aInt then
    (Except.ok { input := FieldType.select.name, options := some [],
                 source_field := some (pyCapitalize (pyReplace key "_id" "")),
                 req := some req.toBool }, cat)
  else typ2inpChain typ req cat

/-- One entry of `pyd.model_fields`: the declared annotation, the title
and the validator metadata (opaque to the deriver, copied verbatim). -/
structure FieldInfo where
  annotation : Typ
  title : String
  metadata : List String
  deriving DecidableEq, Repr

/-- One value of the dict built at fmap.py line 55:
`{**typ2inp(f.annotation, key), 'name': f.title, 'validators': f.metadata}`.
The `{** ...}` spread copies the (possibly shared) inp dict. -/
structure Descriptor where
  inp : Inp
  name : String
  validators : List String
  deriving DecidableEq, Repr

/-- fmap.py line 55, `ffrom_pyd`: the dict comprehension over
`pyd.model_fields.items()`, which evaluates fields left to right
(threading the catalog state mutated by `typ2inp`) and propagates the
first exception. -/
def ffrom_pyd : List (String × FieldInfo) → Catalog →
    Except SchemaError (List (String × Descriptor)) × Catalog
  | [], cat => (Except.ok [], cat)
  | (key, f) :: rest, cat =>
    match typ2inp f.annotation key (ReqVal.rBool true) cat with
    | (Except.error e, cat2) => (Except.error e, cat2)
    | (Except.ok inp, cat2) =>
      match ffrom_pyd rest cat2 with
      | (Except.error e, cat3) => (Except.error e, cat3)
      | (Except.ok ds, cat3) =>
        (Except.ok ((key, { inp := inp, name := f.title, validators := f.metadata }) :: ds), cat3)

/-! ### admin.py — auth gate -/

/-- The 303 response raised by `auth_middleware`
(admin.py lines 119-123). -/
structure AuthRedirect where
  status : Nat
  location : String
  detail : String
  deriving DecidableEq, Repr

def loginRedirect : AuthRedirect :=
  { status := 303, location := "/login", detail := "Not authenticated bruh" }

/-- `request.cookies.get(k)`: first binding of `k` in the cookie dict. -/
def cookieGet (cookies : List (String × String)) (k : String) : Option String :=
  (cookies.find? (fun p => p.fst = k)).map Prod.snd

/-- admin.py lines 114-123, `auth_middleware`: `if not (token :=
request.cookies.get('token')): raise HTTPException(303, Location=/login)`.
A missing cookie (`None`) and an empty-string cookie are both falsy; any
other value passes.  The function reads `request.app.redis` into a local
(line 117) but never uses it — the token value is not validated against
the session store or anything else. -/
def auth_middleware (cookies : List (String × String)) : Except AuthRedirect Unit :=
  match cookieGet cookies "token" with
  | none => Except.error loginRedirect
  | some t => if t = "" then Except.error loginRedirect else Except.ok ()

/-! ### admin.py — datatable rendering -/

/-- A Python value stored on a model attribute, as far as `dt`'s `render`
inspects it: a string, an int (primary keys), a related `Model` instance
(with its class name, id and `repr()`), a `ReverseRelation` (a list of
related objects, each with class name, id and `repr()`), `None`, or
anything else (opaque). -/
inductive Val
  | vStr (s : String)
  | vInt (n : Int)
  | vModel (type_ : String) (id : Int) (repr_ : String)
  | vRev (objs : List (String × Int × String))
  | vNone
  | vOther (s : String)
  deriving DecidableEq, Repr

/-- The f-string interpolation `f'...{val}...'` for the values that reach
it in `render` (ids and raw values; for the opaque cases the payload
string stands for Python's `str(val)`). -/
def valToStr : Val → String
  | .vStr s => s
  | .vInt n => toString n
  | .vModel _ _ r => r
  | .vRev _ => ""
  | .vNone => "None"
  | .vOther s => s

/-- admin.py lines 247-248, `rel`: the badge-link HTML fragment. -/
def rel (type_ : String) (id : String) (repr_ : String) : String :=
  "<a class=\"m-1 py-1 px-2 badge bg-blue-lt lead\" href=\"/" ++ type_ ++ "/"
    ++ id ++ "\">" ++ repr_ ++ "</a>"

def pyTake (s : String) (n : Nat) : String :=
  String.mk (s.data.take n)

/-- admin.py lines 250-259, `check`: the id column becomes a self link,
related `Model`s and `ReverseRelation`s become badge links, strings
longer than 120 characters are truncated with a `..` suffix, everything
else passes through unchanged. -/
def check (modelName : String) (val : Val) (key : String) : Val :=
  if key = "id" then
    Val.vStr (rel modelName (valToStr val) (valToStr val))
  else
    match val with
    | .vModel t i r => Val.vStr (rel t (toString i) r)
    | .vRev objs =>
      Val.vStr (String.intercalate " " (objs.map (fun o => rel o.1 (toString o.2.1) o.2.2)))
    | .vStr s => if s.data.length > 120 then Val.vStr (pyTake s 120 ++ "..") else Val.vStr s
    | v => v

/-- admin.py line 261, `render`: one row of the datatable —
`{key: check(obj.__getattribute__(key), key) for key in
obj._meta.fields_map if not key.endswith('_id')}`.  The object is its
ordered attribute map (one entry per `fields_map` key). -/
def render (modelName : String) (fieldsMap : List (String × Val)) : List (String × Val) :=
  (fieldsMap.filter (fun p => !pyEndsWith p.fst "_id")).map
    (fun p => (p.fst, check modelName p.snd p.fst))

/-! ### C1 — the foreign-key convention rule -/

/-- C1 (counterexample): the claim says `referenceEntity` is the portion
of the field name *before the suffix*, capitalized.  For the field
`parent_id_id` of integer type that portion is `parent_id`, whose
capitalization is `Parent_id`; but the code runs
`key.replace('_id', '')`, which removes *every* occurrence of `_id`, and
produces `Parent`. -/
theorem fk_rule_claim_counterexample :
    (typ2inp (Typ.atom Atom.aInt) "parent_id_id" (ReqVal.rBool true) type2inputs).1 =
      Except.ok { input := "select", options := some [], source_field := some "Parent",
                  req := some true } ∧
    pyCapitalize "parent_id" = "Parent_id" ∧ ("Parent" : String) ≠ "Parent_id" := by
  decide

/-- C1 (amended): for every field whose name ends with `_id` and whose
declared type is the plain integer class, `typ2inp` returns a fresh
select descriptor with empty options and `source_field` equal to the
field name with every occurrence of `_id` removed, then capitalized —
regardless of (and without touching) the catalog, so the convention rule
takes priority over the catalog's integer entry. -/
theorem fk_rule_source_field (key : String) (req : ReqVal) (cat : Catalog)
    (h : pyEndsWith key "_id" = true) :
    typ2inp (Typ.atom Atom.aInt) key req cat =
      (Except.ok { input := FieldType.select.name, options := some [],
                   source_field := some (pyCapitalize (pyReplace key "_id" "")),
                   req := some req.toBool }, cat) := by
  unfold typ2inp
  rw [if_pos ⟨h, rfl⟩]

/-- C1 (witness): the spec's own example — `author_id` of integer type
yields a select with empty options and reference entity `Author`. -/
theorem fk_rule_source_field_witness :
    pyEndsWith "author_id" "_id" = true ∧
    typ2inp (Typ.atom Atom.aInt) "author_id" (ReqVal.rBool true) type2inputs =
      (Except.ok { input := "select", options := some [], source_field := some "Author",
                   req := some true }, type2inputs) := by
  refine ⟨by decide, ?_⟩
  rw [fk_rule_source_field "author_id" (ReqVal.rBool true) type2inputs (by decide)]
  decide

/-! ### C2 — the widget catalog against the §4.1 table -/

/-- C2 (counterexample): the §4.1 table says the integer entry carries
`step=1`; the `type2inputs` literal's `int` entry is
`{'input': 'input', 'type': 'number'}` with no `step` key at all. -/
theorem catalog_int_step_counterexample :
    Catalog.get type2inputs Atom.aInt = some { input := "input", ty := some "number" } ∧
    Catalog.get type2inputs Atom.aInt ≠
      some { input := "input", ty := some "number", step := some "1" } := by
  decide

/-- C2 (amended): the catalog maps the seven primitive types exactly as
the §4.1 table states — string to a plain input, integer to a numeric
input (with *no* explicit step; the HTML default step of 1 applies),
float to a numeric input with step 0.001, bool to a checkbox, and the
three date/time types to inputs with the corresponding `type` attribute —
and `typ2inp` on a plain integer field returns the catalog's numeric
descriptor. -/
theorem catalog_matches_table :
    Catalog.get type2inputs Atom.aStr = some { input := "input" } ∧
    Catalog.get type2inputs Atom.aInt = some { input := "input", ty := some "number" } ∧
    Catalog.get type2inputs Atom.aFloat =
      some { input := "input", ty := some "number", step := some "0.001" } ∧
    Catalog.get type2inputs Atom.aBool = some { input := "checkbox" } ∧
    Catalog.get type2inputs Atom.aDatetime = some { input := "input", ty := some "datetime-local" } ∧
    Catalog.get type2inputs Atom.aDate = some { input := "input", ty := some "date" } ∧
    Catalog.get type2inputs Atom.aTime = some { input := "input", ty := some "time" } ∧
    (typ2inp (Typ.atom Atom.aInt) "num" (ReqVal.rBool true) type2inputs).1 =
      Except.ok { input := "input", ty := some "number", req := some true } := by
  decide

/-! ### C3 — optional unwrapping and the `required` flag -/

/-- C3 (code bug): for an optional string field — either the
`str | None` union or `typing.Optional[str]` — `typ2inp` does unwrap to
`str` and retry the catalog lookup (the widget is the text input), but
the resulting descriptor has `req = True`, not the `required = false`
the spec states.  The unpacking `typ, req = get_args(typ)` binds `req`
to the class `NoneType`, and `bool(NoneType)` is `True` because every
class object is truthy in Python. -/
theorem optional_str_req_true_eval :
    (ffrom_pyd [("nick", ⟨Typ.tUnion [Atom.aStr, Atom.aNoneType], "Nick", []⟩)] type2inputs).1 =
      Except.ok [("nick", ⟨{ input := "input", req := some true }, "Nick", []⟩)] ∧
    (typ2inp (Typ.tOptional Atom.aStr) "nick" (ReqVal.rBool true) type2inputs).1 =
      Except.ok { input := "input", req := some true } := by
  decide

/-! ### C4 — unsupported field types -/

/-- C4: for every field whose class has no catalog entry and matches no
fallback rule (not an `IntEnum` subclass, and not a generic alias whose
origin has a catalog entry), `typ2inp` raises — modelled as the
recoverable `unsupportedFieldType` error — and returns no partial
descriptor; the catalog is left untouched. -/
theorem unmatched_type_signals_error (a : Atom) (key : String) (req : ReqVal) (cat : Catalog)
    (h1 : cat.get a = none)
    (h2 : enumMembers a = none)
    (h3 : ∀ o, a = Atom.aGeneric o → cat.get o = none) :
    typ2inp (Typ.atom a) key req cat = (Except.error SchemaError.unsupportedFieldType, cat) := by
  have hne : ¬(pyEndsWith key "_id" = true ∧ Typ.atom a = Typ.atom Atom.aInt) := by
    rintro ⟨-, hc⟩
    cases hc
    simp [Catalog.get] at h1
  unfold typ2inp
  rw [if_neg hne]
  unfold typ2inpChain
  simp only [typGet, h1]
  unfold typ2inpPhase2
  simp only [h1, h2]
  cases a with
  | aGeneric o => simp only [h3 o rfl]
  | aStr => rfl
  | aInt => rfl
  | aFloat => rfl
  | aBool => rfl
  | aDatetime => rfl
  | aDate => rfl
  | aTime => rfl
  | aIntEnumBase => rfl
  | aEnum n ms => rfl
  | aList => rfl
  | aDict => rfl
  | aSet => rfl
  | aNoneType => rfl
  | aOther n => rfl

/-- C4 (witness): a field of an unknown class yields the error and the
unchanged catalog. -/
theorem unmatched_type_signals_error_witness :
    typ2inp (Typ.atom (Atom.aOther "ImageField")) "avatar" (ReqVal.rBool true) type2inputs =
      (Except.error SchemaError.unsupportedFieldType, type2inputs) :=
  unmatched_type_signals_error (Atom.aOther "ImageField") "avatar" (ReqVal.rBool true)
    type2inputs rfl rfl (fun _ ho => nomatch ho)

/-! ### C5 — side effects on the shared catalog -/

/-- C5 (counterexample): a single `typ2inp` call does *not* leave the
shared `type2inputs` catalog as it was.  Resolving a plain string field
writes `req: True` into the shared `str` template (the returned dict
aliases the catalog entry, and line 52's `inp.update` mutates it), and
resolving an `IntEnum` subclass writes that enum's options into the
shared `IntEnum` template, where they persist for later calls. -/
theorem typ2inp_mutates_catalog_counterexample :
    (typ2inp (Typ.atom Atom.aStr) "name" (ReqVal.rBool true) type2inputs).2 ≠ type2inputs ∧
    ((typ2inp (Typ.atom (Atom.aEnum "Color" [(1, "red")])) "color" (ReqVal.rBool true)
        type2inputs).2).cIntEnum.options = some [(1, "red")] := by
  decide

/-- C5 (amended): `typ2inp` is not side-effect free — every direct
catalog hit returns the shared template dict itself, mutated in place
with the computed `req` flag, so the catalog after the call is the old
catalog with that entry overwritten. -/
theorem typ2inp_direct_hit_mutation (a : Atom) (key : String) (req : ReqVal) (cat : Catalog)
    (inp : Inp)
    (hfk : ¬(pyEndsWith key "_id" = true ∧ Typ.atom a = Typ.atom Atom.aInt))
    (hhit : cat.get a = some inp) :
    typ2inp (Typ.atom a) key req cat =
      (Except.ok { inp with req := some req.toBool },
       cat.set a { inp with req := some req.toBool }) := by
  unfold typ2inp
  rw [if_neg hfk]
  unfold typ2inpChain
  simp only [typGet, hhit]

/-- C5 (witness): the concrete mutation for a plain string field. -/
theorem typ2inp_direct_hit_mutation_witness :
    typ2inp (Typ.atom Atom.aStr) "name" (ReqVal.rBool true) type2inputs =
      (Except.ok { input := "input", req := some true },
       Catalog.set type2inputs Atom.aStr { input := "input", req := some true }) := by
  rw [typ2inp_direct_hit_mutation Atom.aStr "name" (ReqVal.rBool true) type2inputs
      { input := FieldType.input.name } (by decide) (by decide)]
  decide

/-! ### C6 — malformed unions -/

/-- C6 (counterexample): the claim says a union with more than one
non-null member signals `ambiguous-optional-type`.  For the two-member
union `int | str` the code instead silently resolves the field: the
unpacking succeeds, the first member `int` becomes the type, and the
catalog's numeric template is returned with `req = True` (the truthiness
of the class `str`). -/
theorem two_member_union_resolved_counterexample :
    (typ2inp (Typ.tUnion [Atom.aInt, Atom.aStr]) "x" (ReqVal.rBool true) type2inputs).1 =
      Except.ok { input := "input", ty := some "number", req := some true } ∧
    (typ2inp (Typ.tUnion [Atom.aInt, Atom.aStr]) "x" (ReqVal.rBool true) type2inputs).1 ≠
      Except.error SchemaError.ambiguousOptionalType := by
  decide

/-- C6 (amended): only a union with *other than exactly two* members
raises (the two-name unpacking of `get_args` fails, modelled as
`ambiguousOptionalType`); a two-member union — whatever its members —
is silently resolved through its first member. -/
theorem union_wrong_arity_error (args : List Atom) (key : String) (req : ReqVal) (cat : Catalog)
    (h : args.length ≠ 2) :
    typ2inp (Typ.tUnion args) key req cat =
      (Except.error SchemaError.ambiguousOptionalType, cat) := by
  unfold typ2inp
  rw [if_neg fun hc => Typ.noConfusion hc.2]
  unfold typ2inpChain
  match args with
  | [] => rfl
  | [a] => rfl
  | [a, b] => exact absurd rfl h
  | a :: b :: c :: rest => rfl

/-- C6 (witness): the three-member union `int | str | None` raises. -/
theorem union_wrong_arity_error_witness :
    typ2inp (Typ.tUnion [Atom.aInt, Atom.aStr, Atom.aNoneType]) "x" (ReqVal.rBool true)
        type2inputs =
      (Except.error SchemaError.ambiguousOptionalType, type2inputs) :=
  union_wrong_arity_error [Atom.aInt, Atom.aStr, Atom.aNoneType] "x" (ReqVal.rBool true)
    type2inputs (by decide)

/-! ### C7 — field order -/

/-- C7: whenever `ffrom_pyd` succeeds, the keys of the returned mapping
are exactly the keys of the input field sequence, in the same order, for
any number of fields and any catalog state. -/
theorem ffrom_pyd_preserves_order (fields : List (String × FieldInfo)) (cat : Catalog)
    (res : List (String × Descriptor))
    (h : (ffrom_pyd fields cat).1 = Except.ok res) :
    res.map Prod.fst = fields.map Prod.fst := by
  induction fields generalizing cat res with
  | nil =>
    unfold ffrom_pyd at h
    simp only [Except.ok.injEq] at h
    subst h
    rfl
  | cons p rest ih =>
    obtain ⟨key, f⟩ := p
    unfold ffrom_pyd at h
    cases hty : typ2inp f.annotation key (ReqVal.rBool true) cat with
    | mk r1 cat2 =>
      rw [hty] at h
      cases r1 with
      | error e => simp at h
      | ok inp =>
        dsimp only at h
        cases hrec : ffrom_pyd rest cat2 with
        | mk r2 cat3 =>
          rw [hrec] at h
          cases r2 with
          | error e => simp at h
          | ok ds =>
            simp only [Except.ok.injEq] at h
            subst h
            simp only [List.map_cons, List.cons.injEq, true_and]
            exact ih cat2 ds (by rw [hrec])

/-- C7 (witness): a fixed three-field sequence keeps its order. -/
theorem ffrom_pyd_preserves_order_witness :
    ([("a", (⟨{ input := "input", req := some true }, "A", []⟩ : Descriptor)),
      ("b", ⟨{ input := "input", ty := some "number", req := some true }, "B", []⟩),
      ("c", ⟨{ input := "checkbox", req := some true }, "C", []⟩)].map Prod.fst) =
    ([("a", (⟨Typ.atom Atom.aStr, "A", []⟩ : FieldInfo)),
      ("b", ⟨Typ.atom Atom.aInt, "B", []⟩),
      ("c", ⟨Typ.atom Atom.aBool, "C", []⟩)].map Prod.fst) :=
  ffrom_pyd_preserves_order
    [("a", ⟨Typ.atom Atom.aStr, "A", []⟩), ("b", ⟨Typ.atom Atom.aInt, "B", []⟩),
     ("c", ⟨Typ.atom Atom.aBool, "C", []⟩)]
    type2inputs _ (by decide)

/-! ### C8 — the auth gate -/

/-- C8: `auth_middleware` raises its 303 redirect to `/login` exactly
when the request carries no `token` cookie or an empty one; any
non-empty token cookie passes.  The gate is a function of the cookies
alone — the token is never compared against the session store (the
source reads `request.app.redis` into a local it never uses). -/
theorem auth_middleware_gate (cookies : List (String × String)) :
    auth_middleware cookies = Except.error loginRedirect ↔
      (cookieGet cookies "token" = none ∨ cookieGet cookies "token" = some "") := by
  unfold auth_middleware
  cases h : cookieGet cookies "token" with
  | none => simp
  | some t =>
    by_cases ht : t = ""
    · subst ht
      simp
    · simp [ht]

/-! ### C9 — the convention rule needs the plain integer class -/

/-- C9: the foreign-key convention rule fires only when the declared
type is exactly the plain `int` class.  For any other type — whatever
the field name — `typ2inp` is the catalog-lookup-and-fallback chain of
lines 41-53. -/
theorem fk_rule_requires_plain_int (typ : Typ) (key : String) (req : ReqVal) (cat : Catalog)
    (h : typ ≠ Typ.atom Atom.aInt) :
    typ2inp typ key req cat = typ2inpChain typ req cat := by
  unfold typ2inp
  rw [if_neg fun hc => h hc.2]

/-- C9 (witness): `author_id` with the nullable union `int | None` is
not treated as a reference — it falls through to the chain, which
unwraps and returns the plain numeric-input template. -/
theorem fk_rule_requires_plain_int_witness :
    typ2inp (Typ.tUnion [Atom.aInt, Atom.aNoneType]) "author_id" (ReqVal.rBool true)
        type2inputs =
      typ2inpChain (Typ.tUnion [Atom.aInt, Atom.aNoneType]) (ReqVal.rBool true) type2inputs ∧
    (typ2inpChain (Typ.tUnion [Atom.aInt, Atom.aNoneType]) (ReqVal.rBool true) type2inputs).1 =
      Except.ok { input := "input", ty := some "number", req := some true } :=
  ⟨fk_rule_requires_plain_int (Typ.tUnion [Atom.aInt, Atom.aNoneType]) "author_id"
      (ReqVal.rBool true) type2inputs (by decide),
   by decide⟩

/-! ### C10 — the datatable rows omit `_id` columns -/

/-- C10: every row produced by `render` omits all keys ending in `_id`:
for any model name and any attribute map, every key of the resulting row
fails the `_id`-suffix test. -/
theorem render_omits_id_fields (modelName : String) (fieldsMap : List (String × Val)) :
    ((render modelName fieldsMap).map Prod.fst).all (fun k => !pyEndsWith k "_id") = true := by
  rw [List.all_eq_true]
  intro k hk
  rw [List.mem_map] at hk
  obtain ⟨q, hq, rfl⟩ := hk
  rw [render, List.mem_map] at hq
  obtain ⟨p, hp, rfl⟩ := hq
  have hpred := List.of_mem_filter hp
  simpa using hpred

end FemtoAdmin
